import Mathlib

/-!
Shallow embedding of `src/evaluate.py`, a straight-line driver script
that configures LangSmith tracing environment variables, fail-fast checks
two credential environment variables, wraps a Google generative-AI chat
client, seeds a two-example dataset, defines a target adapter and an
LLM-as-judge correctness evaluator, runs one remote evaluate call and
prints the summary.

The process environment is a map `String → Option String`; external
collaborators (chat client, grader factory, LangSmith backend) are
parameters; the script's observable behaviour is the list of events it
performs, the final environment and its outcome (normal end or a raised
Python error).
-/

/-- A Python string-valued dict (`{"question": ...}` and friends). -/
def Dict : Type := List (String × String)

instance : DecidableEq Dict := by
  unfold Dict
  infer_instance

/-- `d[k]` lookup that can miss, as Python dict subscription can. -/
def dictGet (d : Dict) (k : String) : Option String :=
  match d with
  | [] => none
  | (k0, v0) :: rest => if k0 == k then some v0 else dictGet rest k

/-- Errors the script can raise: `ValueError(msg)` and `KeyError(key)`. -/
inductive PyError : Type
  | valueError (msg : String)
  | keyError (key : String)
deriving DecidableEq

/-- The process environment: variable name to value, absent = `none`. -/
def Env : Type := String → Option String

/-- `os.environ[k] = v`. -/
def updateEnv (e : Env) (k v : String) : Env :=
  fun x => if x == k then some v else e x

/-- Python truthiness of `os.getenv(k)`: `None` and `""` are falsy. -/
def truthy : Option String → Bool
  | none => false
  | some s => !(s == "")

/-- A chat message dict `{"role": ..., "content": ...}`. -/
structure Message : Type where
  role : String
  content : String
deriving DecidableEq

/-- The wrapped chat client's response object; `target` reads `.content`. -/
structure ChatResponse : Type where
  content : String
deriving DecidableEq

/-- What one call of `target` did: the invocations made on the chat
client, and either the returned dict or the raised error. -/
structure TargetRun : Type where
  clientCalls : List (List Message)
  result : Except PyError Dict

/-- `target(inputs)` from `src/evaluate.py` lines 24-31: subscripting
`inputs["question"]` happens while building the message list, so a
missing key raises `KeyError` before the client is invoked; otherwise
the client is invoked once on the two-message list and
`{"answer": response.content}` is returned. -/
def target (openai_client : List Message → ChatResponse)
    (inputs : Dict) : TargetRun :=
  match dictGet inputs "question" with
  | none => ⟨[], .error (.keyError "question")⟩
  | some q =>
    let msgs : List Message :=
      [⟨"system", "Answer the following question accurately"⟩,
       ⟨"user", q⟩]
    ⟨[msgs], .ok [("answer", (openai_client msgs).content)]⟩

/-- The configuration `correctness_evaluator` hands to
`create_llm_as_judge`. -/
structure JudgeConfig : Type where
  prompt : String
  model : String
  feedbackKey : String
deriving DecidableEq

/-- `correctness_evaluator` from `src/evaluate.py` lines 58-67.
`create_llm_as_judge` and the imported `CORRECTNESS_PROMPT` constant are
external, so they are parameters; the grader it returns may produce any
result type. -/
def correctness_evaluator {R : Type}
    (CORRECTNESS_PROMPT : String)
    (create_llm_as_judge : JudgeConfig → (Dict → Dict → Dict → R))
    (inputs outputs reference_outputs : Dict) : R :=
  let evaluator :=
    create_llm_as_judge ⟨CORRECTNESS_PROMPT, "gemini-1.5-flash", "correctness"⟩
  let eval_result := evaluator inputs outputs reference_outputs
  eval_result

/-- One example record of the `examples` list: an `inputs` and an
`outputs` mapping. -/
structure ExampleRec : Type where
  inputs : Dict
  outputs : Dict
deriving DecidableEq

/-- The `examples` literal from `src/evaluate.py` lines 38-47. -/
def examples : List ExampleRec :=
  [⟨[("question", "Which country is Mount Kilimanjaro located in?")],
    [("answer", "Mount Kilimanjaro is located in Tanzania.")]⟩,
   ⟨[("question", "What is Earth's lowest point?")],
    [("answer", "Earth's lowest point is The Dead Sea.")]⟩]

/-- Observable actions of the top-level script, in program order:
environment mutations, construction of the wrapped chat client, the
LangSmith network calls and the final print. -/
inductive Event : Type
  | setEnv (key value : String)
  | constructChatClient (apiKey model : String)
  | createDataset (datasetName description : String)
  | createExample (datasetId : String) (inputs outputs : Dict)
  | evaluateCall (data : String) (experimentLabel : String)
      (maxConcurrency : Nat)
  | printLine (line : String)
deriving DecidableEq

/-- Responses of the external LangSmith backend that the script's
observable behaviour depends on: the id of the created dataset object
and the text representation of the returned evaluation summary. -/
structure World : Type where
  datasetId : String
  evalSummary : String

/-- Result of running the whole module: the events performed, the final
process environment, and normal completion or a raised error. -/
structure RunResult : Type where
  events : List Event
  env : Env
  outcome : Except PyError Unit

/-- The module-level script of `src/evaluate.py` (lines 8-78).  It sets
`LANGSMITH_TRACING` and `LANGSMITH_ENDPOINT` unconditionally, checks
`os.getenv` truthiness of `LANGSMITH_API_KEY` (re-assigning it on
success) and then of `GOOGLE_API_KEY`, raising `ValueError` on the first
falsy one; on success it constructs the wrapped chat client, creates the
dataset, creates one example per entry of `examples`, makes the single
`evaluate` call and prints the summary line (Python `print` with two
arguments joins them with one space). -/
def runScript (env : Env) (w : World) : RunResult :=
  let env1 := updateEnv (updateEnv env "LANGSMITH_TRACING" "true")
    "LANGSMITH_ENDPOINT" "https://api.smith.langchain.com"
  let ev1 : List Event :=
    [.setEnv "LANGSMITH_TRACING" "true",
     .setEnv "LANGSMITH_ENDPOINT" "https://api.smith.langchain.com"]
  if truthy (env1 "LANGSMITH_API_KEY") then
    let lsKey := (env1 "LANGSMITH_API_KEY").getD ""
    let env2 := updateEnv env1 "LANGSMITH_API_KEY" lsKey
    let ev2 := ev1 ++ [.setEnv "LANGSMITH_API_KEY" lsKey]
    if truthy (env2 "GOOGLE_API_KEY") then
      let gKey := (env2 "GOOGLE_API_KEY").getD ""
      let ev3 := ev2 ++ [.constructChatClient gKey "gemini-1.5-flash"]
      let ev4 := ev3 ++
        [.createDataset "ds-somber-trailer-42" "A sample dataset in LangSmith."]
      let ev5 := ev4 ++ examples.map
        (fun ex => .createExample w.datasetId ex.inputs ex.outputs)
      let ev6 := ev5 ++
        [.evaluateCall "ds-somber-trailer-42"
          "experiment-quickstart-excellent-curiosity-99" 2]
      let ev7 := ev6 ++
        [.printLine ("Evaluation completed. Results: " ++ w.evalSummary)]
      ⟨ev7, env2, .ok ()⟩
    else
      ⟨ev2, env2,
       .error (.valueError "Please set the GOOGLE_API_KEY environment variable")⟩
  else
    ⟨ev1, env1,
     .error (.valueError "Please set the LANGSMITH_API_KEY environment variable")⟩

/-- Classifier: is this event a process-environment mutation (and hence
not a network call or client construction)? -/
def Event.isSetEnv : Event → Bool
  | .setEnv _ _ => true
  | _ => false

/-- Classifier for dataset-creation events. -/
def Event.isCreateDataset : Event → Bool
  | .createDataset _ _ => true
  | _ => false

/-- Classifier for example-creation events. -/
def Event.isCreateExample : Event → Bool
  | .createExample _ _ _ => true
  | _ => false

/-- Classifier for the remote evaluate call. -/
def Event.isEvaluateCall : Event → Bool
  | .evaluateCall _ _ _ => true
  | _ => false

/-- Classifier for printed lines. -/
def Event.isPrintLine : Event → Bool
  | .printLine _ => true
  | _ => false

/-- The environment after the two unconditional tracing-variable writes
of lines 8-9. -/
def bootEnv (env : Env) : Env :=
  updateEnv (updateEnv env "LANGSMITH_TRACING" "true")
    "LANGSMITH_ENDPOINT" "https://api.smith.langchain.com"

/-- The two environment-mutation events of lines 8-9. -/
def bootEvents : List Event :=
  [.setEnv "LANGSMITH_TRACING" "true",
   .setEnv "LANGSMITH_ENDPOINT" "https://api.smith.langchain.com"]

/-- The environment after line 13 re-assigns `LANGSMITH_API_KEY`. -/
def postKeyEnv (env : Env) : Env :=
  updateEnv (bootEnv env) "LANGSMITH_API_KEY"
    ((env "LANGSMITH_API_KEY").getD "")

/-- The full event trace of a successful run. -/
def successEvents (env : Env) (w : World) : List Event :=
  [.setEnv "LANGSMITH_TRACING" "true",
   .setEnv "LANGSMITH_ENDPOINT" "https://api.smith.langchain.com",
   .setEnv "LANGSMITH_API_KEY" ((env "LANGSMITH_API_KEY").getD ""),
   .constructChatClient ((env "GOOGLE_API_KEY").getD "") "gemini-1.5-flash",
   .createDataset "ds-somber-trailer-42" "A sample dataset in LangSmith.",
   .createExample w.datasetId
     [("question", "Which country is Mount Kilimanjaro located in?")]
     [("answer", "Mount Kilimanjaro is located in Tanzania.")],
   .createExample w.datasetId
     [("question", "What is Earth's lowest point?")]
     [("answer", "Earth's lowest point is The Dead Sea.")],
   .evaluateCall "ds-somber-trailer-42"
     "experiment-quickstart-excellent-curiosity-99" 2,
   .printLine ("Evaluation completed. Results: " ++ w.evalSummary)]

/-- `env` with every empty-string binding replaced by absence; used to
compare how the script treats `""`-valued and unset credentials. -/
def eraseEmpty (env : Env) : Env := fun k =>
  match env k with
  | some s => if s == "" then none else some s
  | none => none

/-- Concrete backend responses for witnesses. -/
def w0 : World := ⟨"dataset-0", "<ExperimentResults run-1>"⟩

/-- A process environment with no variables bound. -/
def envEmptyProc : Env := fun _ => none

/-- A process environment with both credentials bound to nonempty
strings. -/
def envFull : Env := fun k =>
  if k == "LANGSMITH_API_KEY" then some "lsv2-key" else
  if k == "GOOGLE_API_KEY" then some "google-key" else none

/-- A process environment where `LANGSMITH_API_KEY` is present but bound
to the empty string and `GOOGLE_API_KEY` is present and nonempty. -/
def envEmptyLangsmith : Env := fun k =>
  if k == "LANGSMITH_API_KEY" then some "" else
  if k == "GOOGLE_API_KEY" then some "google-key" else none

/-- A mocked chat client answering every invocation with a fixed text. -/
def chatClient0 : List Message → ChatResponse := fun _ => ⟨"a fixed reply"⟩

theorem bootEnv_langsmith_key (env : Env) :
    bootEnv env "LANGSMITH_API_KEY" = env "LANGSMITH_API_KEY" := by
  simp [bootEnv, updateEnv]

theorem postKeyEnv_google_key (env : Env) :
    postKeyEnv env "GOOGLE_API_KEY" = env "GOOGLE_API_KEY" := by
  simp [postKeyEnv, bootEnv, updateEnv]

theorem runScript_missing_langsmith (env : Env) (w : World)
    (hL : truthy (env "LANGSMITH_API_KEY") = false) :
    runScript env w =
      ⟨bootEvents, bootEnv env,
       .error (.valueError "Please set the LANGSMITH_API_KEY environment variable")⟩ := by
  simp [runScript, bootEvents]
  rw [show updateEnv (updateEnv env "LANGSMITH_TRACING" "true")
       "LANGSMITH_ENDPOINT" "https://api.smith.langchain.com"
       = bootEnv env from rfl]
  rw [bootEnv_langsmith_key, hL]
  simp

theorem runScript_missing_google (env : Env) (w : World)
    (hL : truthy (env "LANGSMITH_API_KEY") = true)
    (hG : truthy (env "GOOGLE_API_KEY") = false) :
    runScript env w =
      ⟨bootEvents ++ [.setEnv "LANGSMITH_API_KEY" ((env "LANGSMITH_API_KEY").getD "")],
       postKeyEnv env,
       .error (.valueError "Please set the GOOGLE_API_KEY environment variable")⟩ := by
  simp [runScript, bootEvents]
  rw [show updateEnv (updateEnv env "LANGSMITH_TRACING" "true")
       "LANGSMITH_ENDPOINT" "https://api.smith.langchain.com"
       = bootEnv env from rfl]
  rw [bootEnv_langsmith_key, hL]
  rw [show updateEnv (bootEnv env) "LANGSMITH_API_KEY"
       ((env "LANGSMITH_API_KEY").getD "") = postKeyEnv env from rfl]
  rw [postKeyEnv_google_key, hG]
  simp

theorem runScript_success (env : Env) (w : World)
    (hL : truthy (env "LANGSMITH_API_KEY") = true)
    (hG : truthy (env "GOOGLE_API_KEY") = true) :
    runScript env w = ⟨successEvents env w, postKeyEnv env, .ok ()⟩ := by
  simp [runScript]
  rw [show updateEnv (updateEnv env "LANGSMITH_TRACING" "true")
       "LANGSMITH_ENDPOINT" "https://api.smith.langchain.com"
       = bootEnv env from rfl]
  rw [bootEnv_langsmith_key, hL]
  rw [show updateEnv (bootEnv env) "LANGSMITH_API_KEY"
       ((env "LANGSMITH_API_KEY").getD "") = postKeyEnv env from rfl]
  rw [postKeyEnv_google_key, hG]
  simp [successEvents, examples, postKeyEnv_google_key]

theorem truthy_eraseEmpty (env : Env) (k : String) :
    truthy (eraseEmpty env k) = truthy (env k) := by
  unfold eraseEmpty
  cases h : env k with
  | none => rfl
  | some s =>
    by_cases hs : s = ""
    · simp [hs, truthy]
    · simp [hs, truthy]

theorem string_append_assoc (a b c : String) : a ++ b ++ c = a ++ (b ++ c) := by
  cases a with | mk la =>
  cases b with | mk lb =>
  cases c with | mk lc =>
  show String.mk (la ++ lb ++ lc) = String.mk (la ++ (lb ++ lc))
  rw [List.append_assoc]

/-- Claim C1: if either required credential environment variable
(`LANGSMITH_API_KEY` or `GOOGLE_API_KEY`) is unset, the script fails
before any network call: the outcome is a raised `ValueError` and every
performed event is a plain environment write — no chat client
construction, no dataset creation, no example creation, no evaluate
call. -/
theorem c1_missing_credential_no_network (env : Env) (w : World)
    (h : env "LANGSMITH_API_KEY" = none ∨ env "GOOGLE_API_KEY" = none) :
    (∃ msg, (runScript env w).outcome = .error (.valueError msg)) ∧
    (runScript env w).events.all Event.isSetEnv = true := by
  rcases h with h | h
  · have hL : truthy (env "LANGSMITH_API_KEY") = false := by rw [h]; rfl
    rw [runScript_missing_langsmith env w hL]
    exact ⟨⟨_, rfl⟩, by rfl⟩
  · by_cases hL : truthy (env "LANGSMITH_API_KEY") = true
    · have hG : truthy (env "GOOGLE_API_KEY") = false := by rw [h]; rfl
      rw [runScript_missing_google env w hL hG]
      exact ⟨⟨_, rfl⟩, by rfl⟩
    · have hL0 : truthy (env "LANGSMITH_API_KEY") = false := by
        cases hb : truthy (env "LANGSMITH_API_KEY")
        · rfl
        · exact absurd hb hL
      rw [runScript_missing_langsmith env w hL0]
      exact ⟨⟨_, rfl⟩, by rfl⟩

/-- Witness for C1 at the fully unset environment. -/
theorem c1_missing_credential_no_network_witness :
    (envEmptyProc "LANGSMITH_API_KEY" = none ∨
      envEmptyProc "GOOGLE_API_KEY" = none) ∧
    ((∃ msg, (runScript envEmptyProc w0).outcome = .error (.valueError msg)) ∧
     (runScript envEmptyProc w0).events.all Event.isSetEnv = true) :=
  ⟨Or.inl rfl, c1_missing_credential_no_network envEmptyProc w0 (Or.inl rfl)⟩

/-- Claim C2: if the chat client's response to the two-message
invocation built from question `Q` has content `T`, then
`target {question: Q}` returns exactly `{answer: T}`. -/
theorem c2_target_returns_answer
    (openai_client : List Message → ChatResponse) (Q T : String)
    (h : (openai_client
        [⟨"system", "Answer the following question accurately"⟩,
         ⟨"user", Q⟩]).content = T) :
    (target openai_client [("question", Q)]).result = .ok [("answer", T)] := by
  simp [target, dictGet, h]

/-- Witness for C2 at a mocked client returning a fixed text. -/
theorem c2_target_returns_answer_witness :
    (target chatClient0
      [("question", "Which country is Mount Kilimanjaro located in?")]).result
        = .ok [("answer", "a fixed reply")] :=
  c2_target_returns_answer chatClient0
    "Which country is Mount Kilimanjaro located in?" "a fixed reply" rfl

/-- Claim C3: `correctness_evaluator` passes its three argument dicts
unmodified to the grader built by `create_llm_as_judge` from the fixed
prompt, model and feedback key, and returns the grader's result
unchanged. -/
theorem c3_correctness_evaluator_passthrough {R : Type}
    (CORRECTNESS_PROMPT : String)
    (create_llm_as_judge : JudgeConfig → (Dict → Dict → Dict → R))
    (inputs outputs reference_outputs : Dict) :
    correctness_evaluator CORRECTNESS_PROMPT create_llm_as_judge
        inputs outputs reference_outputs
      = create_llm_as_judge
          ⟨CORRECTNESS_PROMPT, "gemini-1.5-flash", "correctness"⟩
          inputs outputs reference_outputs := rfl

/-- Claim C4: in a run that passes the credential checks, there is
exactly one dataset-creation event and exactly one evaluate-call event,
the evaluate call carries `max_concurrency = 2`, and its `data` argument
equals the dataset name passed at creation. -/
theorem c4_evaluate_call_args (env : Env) (w : World)
    (hL : truthy (env "LANGSMITH_API_KEY") = true)
    (hG : truthy (env "GOOGLE_API_KEY") = true) :
    ∃ name,
      (runScript env w).events.filter Event.isCreateDataset
        = [.createDataset name "A sample dataset in LangSmith."] ∧
      (runScript env w).events.filter Event.isEvaluateCall
        = [.evaluateCall name "experiment-quickstart-excellent-curiosity-99" 2] := by
  rw [runScript_success env w hL hG]
  exact ⟨"ds-somber-trailer-42", rfl, rfl⟩

/-- Witness for C4 at a fully configured environment. -/
theorem c4_evaluate_call_args_witness :
    truthy (envFull "LANGSMITH_API_KEY") = true ∧
    truthy (envFull "GOOGLE_API_KEY") = true ∧
    ∃ name,
      (runScript envFull w0).events.filter Event.isCreateDataset
        = [.createDataset name "A sample dataset in LangSmith."] ∧
      (runScript envFull w0).events.filter Event.isEvaluateCall
        = [.evaluateCall name "experiment-quickstart-excellent-curiosity-99" 2] :=
  ⟨rfl, rfl, c4_evaluate_call_args envFull w0 rfl rfl⟩

/-- Claim C5 counterexample: with `LANGSMITH_API_KEY` present but bound
to the empty string (and `GOOGLE_API_KEY` present and nonempty), the
missing-credential `ValueError` is raised even though neither variable
is absent from the environment, so "error if and only if a variable is
absent" is false as stated. -/
theorem c5_error_iff_absent_counterexample :
    ¬ ((∃ msg, (runScript envEmptyLangsmith w0).outcome
          = .error (.valueError msg)) ↔
       (envEmptyLangsmith "LANGSMITH_API_KEY" = none ∨
        envEmptyLangsmith "GOOGLE_API_KEY" = none)) := by
  intro h
  have habs := h.mp
    ⟨"Please set the LANGSMITH_API_KEY environment variable", rfl⟩
  rcases habs with h1 | h1 <;> exact Option.noConfusion h1

/-- Claim C5 as amended: the script's outcome is a synchronously raised
`ValueError` naming the first falsy credential variable if and only if
`LANGSMITH_API_KEY` or `GOOGLE_API_KEY` is absent **or bound to the
empty string** (Python truthiness); otherwise the run completes; on
failure no recovery happens — only environment writes were performed. -/
theorem c5_amended_error_characterization (env : Env) (w : World) :
    ((runScript env w).outcome =
      if truthy (env "LANGSMITH_API_KEY") then
        (if truthy (env "GOOGLE_API_KEY") then .ok ()
         else .error
           (.valueError "Please set the GOOGLE_API_KEY environment variable"))
      else .error
        (.valueError "Please set the LANGSMITH_API_KEY environment variable")) ∧
    ((runScript env w).outcome ≠ .ok () →
      (runScript env w).events.all Event.isSetEnv = true) := by
  by_cases hL : truthy (env "LANGSMITH_API_KEY") = true
  · by_cases hG : truthy (env "GOOGLE_API_KEY") = true
    · rw [runScript_success env w hL hG]
      exact ⟨by rw [hL, hG]; rfl, fun hc => absurd rfl hc⟩
    · have hG0 : truthy (env "GOOGLE_API_KEY") = false := by
        cases hb : truthy (env "GOOGLE_API_KEY")
        · rfl
        · exact absurd hb hG
      rw [runScript_missing_google env w hL hG0]
      exact ⟨by rw [hL, hG0]; rfl, fun _ => rfl⟩
  · have hL0 : truthy (env "LANGSMITH_API_KEY") = false := by
      cases hb : truthy (env "LANGSMITH_API_KEY")
      · rfl
      · exact absurd hb hL
    rw [runScript_missing_langsmith env w hL0]
    exact ⟨by rw [hL0]; rfl, fun _ => rfl⟩

/-- Witness for the amended C5 at the empty-string credential
environment: the error branch is taken and only environment writes
happened. -/
theorem c5_amended_error_characterization_witness :
    (runScript envEmptyLangsmith w0).outcome =
      .error (.valueError "Please set the LANGSMITH_API_KEY environment variable") ∧
    (runScript envEmptyLangsmith w0).events.all Event.isSetEnv = true := by
  have h := c5_amended_error_characterization envEmptyLangsmith w0
  have houtcome : (runScript envEmptyLangsmith w0).outcome =
      .error (.valueError "Please set the LANGSMITH_API_KEY environment variable") := by
    rw [h.1]; rfl
  exact ⟨houtcome,
    h.2 (fun hc => Except.noConfusion (houtcome ▸ hc))⟩

/-- Claim C6: in a run that passes the credential checks, exactly two
example-creation events happen, both against the created dataset's id,
and their `inputs`/`outputs` mappings equal the literal fixtures about
Mount Kilimanjaro and Earth's lowest point. -/
theorem c6_examples_literal (env : Env) (w : World)
    (hL : truthy (env "LANGSMITH_API_KEY") = true)
    (hG : truthy (env "GOOGLE_API_KEY") = true) :
    (runScript env w).events.filter Event.isCreateExample =
      [.createExample w.datasetId
         [("question", "Which country is Mount Kilimanjaro located in?")]
         [("answer", "Mount Kilimanjaro is located in Tanzania.")],
       .createExample w.datasetId
         [("question", "What is Earth's lowest point?")]
         [("answer", "Earth's lowest point is The Dead Sea.")]] := by
  rw [runScript_success env w hL hG]
  rfl

/-- Witness for C6 at a fully configured environment. -/
theorem c6_examples_literal_witness :
    truthy (envFull "LANGSMITH_API_KEY") = true ∧
    truthy (envFull "GOOGLE_API_KEY") = true ∧
    (runScript envFull w0).events.filter Event.isCreateExample =
      [.createExample w0.datasetId
         [("question", "Which country is Mount Kilimanjaro located in?")]
         [("answer", "Mount Kilimanjaro is located in Tanzania.")],
       .createExample w0.datasetId
         [("question", "What is Earth's lowest point?")]
         [("answer", "Earth's lowest point is The Dead Sea.")]] :=
  ⟨rfl, rfl, c6_examples_literal envFull w0 rfl rfl⟩

/-- Claim C7: in a run that passes the credential checks, exactly one
line is printed, and it starts with the literal text
"Evaluation completed. Results:" followed by the evaluate call's
returned summary representation. -/
theorem c7_single_print_line (env : Env) (w : World)
    (hL : truthy (env "LANGSMITH_API_KEY") = true)
    (hG : truthy (env "GOOGLE_API_KEY") = true) :
    ∃ rest, (runScript env w).events.filter Event.isPrintLine
        = [.printLine ("Evaluation completed. Results:" ++ rest)] ∧
      rest = " " ++ w.evalSummary := by
  rw [runScript_success env w hL hG]
  refine ⟨" " ++ w.evalSummary, ?_, rfl⟩
  show [Event.printLine ("Evaluation completed. Results: " ++ w.evalSummary)]
    = [Event.printLine ("Evaluation completed. Results:" ++ (" " ++ w.evalSummary))]
  rw [← string_append_assoc]
  rfl

/-- Witness for C7 at a fully configured environment. -/
theorem c7_single_print_line_witness :
    truthy (envFull "LANGSMITH_API_KEY") = true ∧
    truthy (envFull "GOOGLE_API_KEY") = true ∧
    ∃ rest, (runScript envFull w0).events.filter Event.isPrintLine
        = [.printLine ("Evaluation completed. Results:" ++ rest)] ∧
      rest = " " ++ w0.evalSummary :=
  ⟨rfl, rfl, c7_single_print_line envFull w0 rfl rfl⟩

theorem runScript_outcome_eraseEmpty (env : Env) (w : World) :
    (runScript (eraseEmpty env) w).outcome = (runScript env w).outcome := by
  by_cases hL : truthy (env "LANGSMITH_API_KEY") = true
  · by_cases hG : truthy (env "GOOGLE_API_KEY") = true
    · rw [runScript_success env w hL hG,
        runScript_success (eraseEmpty env) w
          (by rw [truthy_eraseEmpty, hL]) (by rw [truthy_eraseEmpty, hG])]
    · have hG0 : truthy (env "GOOGLE_API_KEY") = false := by
        cases hb : truthy (env "GOOGLE_API_KEY")
        · rfl
        · exact absurd hb hG
      rw [runScript_missing_google env w hL hG0,
        runScript_missing_google (eraseEmpty env) w
          (by rw [truthy_eraseEmpty, hL]) (by rw [truthy_eraseEmpty, hG0])]
  · have hL0 : truthy (env "LANGSMITH_API_KEY") = false := by
      cases hb : truthy (env "LANGSMITH_API_KEY")
      · rfl
      · exact absurd hb hL
    rw [runScript_missing_langsmith env w hL0,
      runScript_missing_langsmith (eraseEmpty env) w
        (by rw [truthy_eraseEmpty, hL0])]

/-- Claim C8: a credential variable bound to the empty string behaves
like an absent one: the run's outcome is unchanged when every
empty-string binding is erased, and if `LANGSMITH_API_KEY` or
`GOOGLE_API_KEY` equals `""` the missing-credential `ValueError` naming
one of the two variables is raised. -/
theorem c8_empty_treated_as_absent (env : Env) (w : World)
    (h : env "LANGSMITH_API_KEY" = some "" ∨
         env "GOOGLE_API_KEY" = some "") :
    (runScript env w).outcome = (runScript (eraseEmpty env) w).outcome ∧
    ∃ v, (v = "LANGSMITH_API_KEY" ∨ v = "GOOGLE_API_KEY") ∧
      (runScript env w).outcome =
        .error (.valueError ("Please set the " ++ v ++ " environment variable")) := by
  refine ⟨(runScript_outcome_eraseEmpty env w).symm, ?_⟩
  rcases h with h | h
  · have hL : truthy (env "LANGSMITH_API_KEY") = false := by rw [h]; rfl
    refine ⟨"LANGSMITH_API_KEY", Or.inl rfl, ?_⟩
    rw [runScript_missing_langsmith env w hL]
    rfl
  · by_cases hL : truthy (env "LANGSMITH_API_KEY") = true
    · have hG : truthy (env "GOOGLE_API_KEY") = false := by rw [h]; rfl
      refine ⟨"GOOGLE_API_KEY", Or.inr rfl, ?_⟩
      rw [runScript_missing_google env w hL hG]
      rfl
    · have hL0 : truthy (env "LANGSMITH_API_KEY") = false := by
        cases hb : truthy (env "LANGSMITH_API_KEY")
        · rfl
        · exact absurd hb hL
      refine ⟨"LANGSMITH_API_KEY", Or.inl rfl, ?_⟩
      rw [runScript_missing_langsmith env w hL0]
      rfl

/-- Witness for C8 at the empty-string credential environment. -/
theorem c8_empty_treated_as_absent_witness :
    (envEmptyLangsmith "LANGSMITH_API_KEY" = some "" ∨
     envEmptyLangsmith "GOOGLE_API_KEY" = some "") ∧
    ((runScript envEmptyLangsmith w0).outcome
        = (runScript (eraseEmpty envEmptyLangsmith) w0).outcome ∧
     ∃ v, (v = "LANGSMITH_API_KEY" ∨ v = "GOOGLE_API_KEY") ∧
       (runScript envEmptyLangsmith w0).outcome =
         .error (.valueError ("Please set the " ++ v ++ " environment variable"))) :=
  ⟨Or.inl rfl, c8_empty_treated_as_absent envEmptyLangsmith w0 (Or.inl rfl)⟩

/-- Claim C9: whenever the run raises the missing-credential
`ValueError`, the process environment has already been mutated:
`LANGSMITH_TRACING` is `"true"` and `LANGSMITH_ENDPOINT` is the fixed
endpoint URL in the final environment, and the first two performed
events are exactly those two writes, before any credential check. -/
theorem c9_env_mutated_before_check (env : Env) (w : World)
    (h : ∃ msg, (runScript env w).outcome = .error (.valueError msg)) :
    (runScript env w).env "LANGSMITH_TRACING" = some "true" ∧
    (runScript env w).env "LANGSMITH_ENDPOINT"
      = some "https://api.smith.langchain.com" ∧
    (runScript env w).events.take 2 = bootEvents := by
  by_cases hL : truthy (env "LANGSMITH_API_KEY") = true
  · by_cases hG : truthy (env "GOOGLE_API_KEY") = true
    · exfalso
      obtain ⟨msg, hmsg⟩ := h
      rw [runScript_success env w hL hG] at hmsg
      exact Except.noConfusion hmsg
    · have hG0 : truthy (env "GOOGLE_API_KEY") = false := by
        cases hb : truthy (env "GOOGLE_API_KEY")
        · rfl
        · exact absurd hb hG
      rw [runScript_missing_google env w hL hG0]
      refine ⟨?_, ?_, rfl⟩ <;> simp [postKeyEnv, bootEnv, updateEnv]
  · have hL0 : truthy (env "LANGSMITH_API_KEY") = false := by
      cases hb : truthy (env "LANGSMITH_API_KEY")
      · rfl
      · exact absurd hb hL
    rw [runScript_missing_langsmith env w hL0]
    refine ⟨?_, ?_, rfl⟩ <;> simp [bootEnv, updateEnv]

/-- Witness for C9 at the fully unset environment. -/
theorem c9_env_mutated_before_check_witness :
    (runScript envEmptyProc w0).env "LANGSMITH_TRACING" = some "true" ∧
    (runScript envEmptyProc w0).env "LANGSMITH_ENDPOINT"
      = some "https://api.smith.langchain.com" ∧
    (runScript envEmptyProc w0).events.take 2 = bootEvents :=
  c9_env_mutated_before_check envEmptyProc w0
    ⟨"Please set the LANGSMITH_API_KEY environment variable", rfl⟩

/-- Claim C10: on an inputs dict lacking the key `"question"`, `target`
raises `KeyError` and never invokes the chat client. -/
theorem c10_missing_question_key_error
    (openai_client : List Message → ChatResponse) (inputs : Dict)
    (h : dictGet inputs "question" = none) :
    (target openai_client inputs).clientCalls = [] ∧
    (target openai_client inputs).result = .error (.keyError "question") := by
  simp [target, h]

/-- Witness for C10 at a dict without the `"question"` key. -/
theorem c10_missing_question_key_error_witness :
    dictGet [("answer", "42")] "question" = none ∧
    (target chatClient0 [("answer", "42")]).clientCalls = [] ∧
    (target chatClient0 [("answer", "42")]).result
      = .error (.keyError "question") :=
  ⟨rfl, c10_missing_question_key_error chatClient0 [("answer", "42")] rfl⟩
